import Mathlib

/-!
# Verification of the `MCPClient` HTTP client (`src/mcp_client.py`)

This file gives a shallow embedding of the client library in
`src/mcp_client.py` and proves properties of it.

The client translates method calls into HTTP requests: each method builds a
URL by string concatenation from the base URL, builds a JSON payload (a Python
dict, embedded here as an insertion-ordered association list), sends the
request through a shared `requests.Session`, calls
`response.raise_for_status()`, and decodes the JSON response body.

Each Python method is split into two pure functions:
* a `*_request` function from the client's `base_url` and the call's
  arguments to the constructed `HttpRequest`, and
* a `*_onResponse` function from the `HttpResponse` the transport yields to
  the value the method returns (or the error it raises), as an `Except`.

Python `None` appearing as a JSON value is `Json.null`; an optional
parameter whose Python default is `None` is an `Option` argument with
`none` meaning "not supplied by the caller".
-/

/-- JSON values, the codomain of Python's JSON encoding.  Objects are
insertion-ordered association lists, matching Python dict semantics. -/
inductive Json where
  | null : Json
  | bool : Bool → Json
  | num : Int → Json
  | str : String → Json
  | arr : List Json → Json
  | obj : List (String × Json) → Json
deriving Repr

/-- Python `d[k] = v` on a dict `d` embedded as an association list: if `k` is
already bound, its value is replaced in place; otherwise `(k, v)` is appended
at the end (dict insertion order). -/
def dictSet : List (String × Json) → String → Json → List (String × Json)
  | [], k, v => [(k, v)]
  | (k', v') :: rest, k, v =>
    if k' = k then (k, v) :: rest else (k', v') :: dictSet rest k v

/-- Python `d.update(kw)`: every binding of `kw`, in order, is written into
`d` with `dictSet`. -/
def dictUpdate (d kw : List (String × Json)) : List (String × Json) :=
  kw.foldl (fun acc p => dictSet acc p.1 p.2) d

/-- Python `d.get(k)` / `k in d`: the first binding of `k`, if any. -/
def dictLookup : List (String × Json) → String → Option Json
  | [], _ => none
  | (k', v') :: rest, k => if k' = k then some v' else dictLookup rest k

/-- JSON encoding of an optional Python value: `None` encodes as `null`. -/
def optJson : Option Json → Json
  | none => Json.null
  | some j => j

/-- JSON encoding of an optional Python string. -/
def optStrJson : Option String → Json
  | none => Json.null
  | some s => Json.str s

/-- JSON encoding of an optional Python list of strings. -/
def optListJson : Option (List String) → Json
  | none => Json.null
  | some xs => Json.arr (xs.map Json.str)

section DictLemmas

theorem dictLookup_dictSet_self (d : List (String × Json)) (k : String) (v : Json) :
    dictLookup (dictSet d k v) k = some v := by
  induction d with
  | nil => simp [dictSet, dictLookup]
  | cons p rest ih =>
    by_cases h : p.1 = k
    · simp [dictSet, dictLookup, h]
    · simp [dictSet, dictLookup, h, ih]

theorem dictLookup_dictSet_ne (d : List (String × Json)) (k k' : String) (v : Json)
    (h : k' ≠ k) : dictLookup (dictSet d k v) k' = dictLookup d k' := by
  induction d with
  | nil => simp [dictSet, dictLookup, Ne.symm h]
  | cons p rest ih =>
    by_cases hp : p.1 = k
    · simp [dictSet, dictLookup, hp, Ne.symm h]
    · simp [dictSet, dictLookup, hp, ih]

theorem dictLookup_isSome_dictSet (d : List (String × Json)) (k k' : String) (v : Json)
    (h : (dictLookup d k').isSome) : (dictLookup (dictSet d k v) k').isSome := by
  by_cases hk : k' = k
  · subst hk; simp [dictLookup_dictSet_self]
  · rw [dictLookup_dictSet_ne d k k' v hk]; exact h

theorem dictLookup_eq_none_of_not_mem (kw : List (String × Json)) (k : String)
    (h : k ∉ kw.map Prod.fst) : dictLookup kw k = none := by
  induction kw with
  | nil => rfl
  | cons p rest ih =>
    simp only [List.map_cons, List.mem_cons] at h
    push_neg at h
    simp [dictLookup, Ne.symm h.1, ih h.2]

theorem dictLookup_dictUpdate_of_none (d kw : List (String × Json)) (k : String)
    (h : dictLookup kw k = none) :
    dictLookup (dictUpdate d kw) k = dictLookup d k := by
  induction kw generalizing d with
  | nil => rfl
  | cons p rest ih =>
    simp only [dictLookup] at h
    by_cases hp : p.1 = k
    · simp [hp] at h
    · simp only [hp, if_false] at h
      show dictLookup (dictUpdate (dictSet d p.1 p.2) rest) k = dictLookup d k
      rw [ih (dictSet d p.1 p.2) h, dictLookup_dictSet_ne _ _ _ _ fun hh => hp hh.symm]

theorem dictLookup_dictUpdate_of_some (d kw : List (String × Json)) (k : String) (v : Json)
    (hnd : (kw.map Prod.fst).Nodup) (h : dictLookup kw k = some v) :
    dictLookup (dictUpdate d kw) k = some v := by
  induction kw generalizing d with
  | nil => simp [dictLookup] at h
  | cons p rest ih =>
    simp only [List.map_cons, List.nodup_cons] at hnd
    simp only [dictLookup] at h
    by_cases hp : p.1 = k
    · simp only [hp, if_true] at h
      injection h with hv
      show dictLookup (dictUpdate (dictSet d p.1 p.2) rest) k = some v
      rw [dictLookup_dictUpdate_of_none _ _ _
            (dictLookup_eq_none_of_not_mem rest k (hp ▸ hnd.1))]
      rw [hp, hv, dictLookup_dictSet_self]
    · simp only [hp, if_false] at h
      exact ih (dictSet d p.1 p.2) hnd.2 h

theorem dictLookup_isSome_dictUpdate (d kw : List (String × Json)) (k : String)
    (h : (dictLookup d k).isSome) : (dictLookup (dictUpdate d kw) k).isSome := by
  induction kw generalizing d with
  | nil => exact h
  | cons p rest ih =>
    exact ih (dictSet d p.1 p.2) (dictLookup_isSome_dictSet d p.1 k p.2 h)

end DictLemmas

/-! ## HTTP model -/

/-- HTTP methods used by the client (`session.get` / `session.post` /
`session.put`). -/
inductive HttpMethod where
  | get : HttpMethod
  | post : HttpMethod
  | put : HttpMethod
deriving Repr, DecidableEq

/-- The request a client method constructs and hands to the transport:
method, full URL (built by string concatenation), the JSON body passed as
`json=...` (if any), the query parameters passed as `params=...` (if any,
with Python `None` values embedded as `Json.null`), and whether the request
was issued with `stream=True`. -/
structure HttpRequest where
  method : HttpMethod
  url : String
  jsonBody : Option Json
  params : Option (List (String × Json))
  stream : Bool
deriving Repr

/-- The response the transport yields: the status code, the raw body text,
and the decoded JSON value when the body parses as JSON (`none` when
`response.json()` would fail to decode). -/
structure HttpResponse where
  status : Nat
  text : String
  jsonOf : Option Json
deriving Repr

/-- Errors a client method can raise. `httpError` is
`requests.exceptions.HTTPError` carrying the response's status code and raw
body; `decodeError` is the JSON decoding failure `response.json()` raises on
a non-JSON body; `pyAttributeError` is the Python runtime error raised when
`.get` is called on a decoded document that is not a mapping. -/
inductive ClientError where
  | httpError : Nat → String → ClientError
  | decodeError : String → ClientError
  | pyAttributeError : ClientError
deriving Repr, DecidableEq

/-- `requests.Response.raise_for_status`: raises an `HTTPError` exactly when
the status code is a 4xx client error or a 5xx server error, i.e. when it
lies in `[400, 600)`.  Statuses outside that range (including 1xx and 3xx)
do not raise. -/
def raiseForStatus (status : Nat) : Bool :=
  decide (400 ≤ status ∧ status < 600)

/-- `response.json()`: the decoded body, or a decode failure. -/
def responseJson (resp : HttpResponse) : Except ClientError Json :=
  match resp.jsonOf with
  | some j => Except.ok j
  | none => Except.error (ClientError.decodeError resp.text)

/-- The uniform response path shared by the JSON-returning operations:
`response.raise_for_status()` followed by `return response.json()`. -/
def handleResponse (resp : HttpResponse) : Except ClientError Json :=
  if raiseForStatus resp.status then
    Except.error (ClientError.httpError resp.status resp.text)
  else responseJson resp

/-- The response path of the operations that return no value (`cancel_run`,
`put_item`): `response.raise_for_status()` and implicitly `return None`. -/
def handleResponseUnit (resp : HttpResponse) : Except ClientError Unit :=
  if raiseForStatus resp.status then
    Except.error (ClientError.httpError resp.status resp.text)
  else Except.ok ()

/-! ## The client and its operations

`MCPClient.__init__` stores the base URL and a fresh `requests.Session`;
the session is opaque to the client, so it is embedded as an abstract
token. -/

structure MCPClient where
  base_url : String
  session : Nat
deriving Repr, DecidableEq

/-- `MCPClient(base_url)`, with `sess` the fresh session object. -/
def mcpClientInit (base_url : String) (sess : Nat) : MCPClient :=
  MCPClient.mk base_url sess

/-! ### run_stateful -/

/-- The payload dict `run_stateful` builds: the five named fields in literal
order, then `payload.update(kwargs)`. -/
def run_stateful_payload (assistant_id : String)
    (input_data config checkpoint metadata : Option Json)
    (kwargs : List (String × Json)) : List (String × Json) :=
  dictUpdate
    [("assistant_id", Json.str assistant_id),
     ("input", optJson input_data),
     ("config", optJson config),
     ("checkpoint", optJson checkpoint),
     ("metadata", optJson metadata)] kwargs

/-- The request `run_stateful` sends: a POST to
`f"{self.base_url}/threads/runs/wait"` with the payload as JSON body. -/
def run_stateful_request (base assistant_id : String)
    (input_data config checkpoint metadata : Option Json)
    (kwargs : List (String × Json)) : HttpRequest :=
  HttpRequest.mk HttpMethod.post (base ++ "/threads/runs/wait")
    (some (Json.obj (run_stateful_payload assistant_id input_data config
      checkpoint metadata kwargs)))
    none false

/-- `run_stateful`'s handling of the response. -/
def run_stateful_onResponse (resp : HttpResponse) : Except ClientError Json :=
  handleResponse resp

/-! ### run_stateless -/

/-- The payload dict `run_stateless` builds (no `checkpoint` field). -/
def run_stateless_payload (assistant_id : String)
    (input_data config metadata : Option Json)
    (kwargs : List (String × Json)) : List (String × Json) :=
  dictUpdate
    [("assistant_id", Json.str assistant_id),
     ("input", optJson input_data),
     ("config", optJson config),
     ("metadata", optJson metadata)] kwargs

/-- The request `run_stateless` sends: a POST to
`f"{self.base_url}/runs/wait"`. -/
def run_stateless_request (base assistant_id : String)
    (input_data config metadata : Option Json)
    (kwargs : List (String × Json)) : HttpRequest :=
  HttpRequest.mk HttpMethod.post (base ++ "/runs/wait")
    (some (Json.obj (run_stateless_payload assistant_id input_data config
      metadata kwargs)))
    none false

/-- `run_stateless`'s handling of the response: it wraps
`raise_for_status()` in a `try`/`except` that first prints
`("HTTP Error:", response.status_code, response.text)` and then re-raises
the same exception.  The first component is the list of diagnostic records
written (status code and raw body), the second the returned value or raised
error. -/
def run_stateless_onResponse (resp : HttpResponse) :
    List (Nat × String) × Except ClientError Json :=
  if raiseForStatus resp.status then
    ([(resp.status, resp.text)],
     Except.error (ClientError.httpError resp.status resp.text))
  else ([], responseJson resp)

/-! ### stream_run -/

/-- A streaming response: the status code, the raw body text, and the body's
lines as they will arrive on the wire, not yet consumed. -/
structure StreamResponse where
  status : Nat
  text : String
  lines : List String
deriving Repr, DecidableEq

/-- The payload dict `stream_run` builds (same fields as `run_stateless`). -/
def stream_run_payload (assistant_id : String)
    (input_data config metadata : Option Json)
    (kwargs : List (String × Json)) : List (String × Json) :=
  dictUpdate
    [("assistant_id", Json.str assistant_id),
     ("input", optJson input_data),
     ("config", optJson config),
     ("metadata", optJson metadata)] kwargs

/-- The request `stream_run` sends: a POST to
`f"{self.base_url}/runs/stream"` with `stream=True`. -/
def stream_run_request (base assistant_id : String)
    (input_data config metadata : Option Json)
    (kwargs : List (String × Json)) : HttpRequest :=
  HttpRequest.mk HttpMethod.post (base ++ "/runs/stream")
    (some (Json.obj (stream_run_payload assistant_id input_data config
      metadata kwargs)))
    none true

/-- `stream_run`'s handling of the response: `raise_for_status()` on the
status alone, then the response object itself is returned with its body
still unconsumed. -/
def stream_run_onResponse (resp : StreamResponse) :
    Except ClientError StreamResponse :=
  if raiseForStatus resp.status then
    Except.error (ClientError.httpError resp.status resp.text)
  else Except.ok resp

/-! ### get_run_status, cancel_run -/

/-- The request `get_run_status` sends: a GET to
`f"{self.base_url}/threads/{thread_id}/runs/{run_id}"`. -/
def get_run_status_request (base thread_id run_id : String) : HttpRequest :=
  HttpRequest.mk HttpMethod.get
    (base ++ "/threads/" ++ thread_id ++ "/runs/" ++ run_id) none none false

/-- `get_run_status`'s handling of the response. -/
def get_run_status_onResponse (resp : HttpResponse) : Except ClientError Json :=
  handleResponse resp

/-- The request `cancel_run` sends: a POST to
`f"{self.base_url}/threads/{thread_id}/runs/{run_id}/cancel"` whose JSON
body is exactly the `kwargs` dict. -/
def cancel_run_request (base thread_id run_id : String)
    (kwargs : List (String × Json)) : HttpRequest :=
  HttpRequest.mk HttpMethod.post
    (base ++ "/threads/" ++ thread_id ++ "/runs/" ++ run_id ++ "/cancel")
    (some (Json.obj kwargs)) none false

/-- `cancel_run`'s handling of the response: validate the status; no value
is returned. -/
def cancel_run_onResponse (resp : HttpResponse) : Except ClientError Unit :=
  handleResponseUnit resp

/-! ### get_assistant_details, get_assistant_schema -/

/-- The request `get_assistant_details` sends: a GET to
`f"{self.base_url}/assistants/{assistant_id}/schemas"`. -/
def get_assistant_details_request (base assistant_id : String) : HttpRequest :=
  HttpRequest.mk HttpMethod.get
    (base ++ "/assistants/" ++ assistant_id ++ "/schemas") none none false

/-- `get_assistant_details`'s handling of the response. -/
def get_assistant_details_onResponse (resp : HttpResponse) :
    Except ClientError Json :=
  handleResponse resp

/-- The request `get_assistant_schema` sends: it calls
`get_assistant_details`, so the request is the same. -/
def get_assistant_schema_request (base assistant_id : String) : HttpRequest :=
  get_assistant_details_request base assistant_id

/-- `get_assistant_schema`'s handling of the response:
`details.get("input_schema", {})` applied to `get_assistant_details`'s
result.  On a decoded document that is not a mapping, Python's `.get` call
raises an attribute error. -/
def get_assistant_schema_onResponse (resp : HttpResponse) :
    Except ClientError Json :=
  match get_assistant_details_onResponse resp with
  | Except.error e => Except.error e
  | Except.ok (Json.obj fields) =>
      Except.ok ((dictLookup fields "input_schema").getD (Json.obj []))
  | Except.ok _ => Except.error ClientError.pyAttributeError

/-! ### get_thread_state, update_thread_state -/

/-- The request `get_thread_state` sends: a GET to
`f"{self.base_url}/threads/{thread_id}/state"`. -/
def get_thread_state_request (base thread_id : String) : HttpRequest :=
  HttpRequest.mk HttpMethod.get
    (base ++ "/threads/" ++ thread_id ++ "/state") none none false

/-- `get_thread_state`'s handling of the response. -/
def get_thread_state_onResponse (resp : HttpResponse) : Except ClientError Json :=
  handleResponse resp

/-- The payload dict `update_thread_state` builds: the required `values` and
the optional `checkpoint` (`null` when not supplied); no kwargs merge. -/
def update_thread_state_payload (values : Json) (checkpoint : Option Json) :
    List (String × Json) :=
  [("values", values), ("checkpoint", optJson checkpoint)]

/-- The request `update_thread_state` sends: a POST to
`f"{self.base_url}/threads/{thread_id}/state"`. -/
def update_thread_state_request (base thread_id : String) (values : Json)
    (checkpoint : Option Json) : HttpRequest :=
  HttpRequest.mk HttpMethod.post
    (base ++ "/threads/" ++ thread_id ++ "/state")
    (some (Json.obj (update_thread_state_payload values checkpoint)))
    none false

/-- `update_thread_state`'s handling of the response. -/
def update_thread_state_onResponse (resp : HttpResponse) :
    Except ClientError Json :=
  handleResponse resp

/-! ### put_item, get_item, search_items -/

/-- The payload dict `put_item` builds. -/
def put_item_payload (ns : List String) (key : String) (value : Json) :
    List (String × Json) :=
  [("namespace", Json.arr (ns.map Json.str)),
   ("key", Json.str key),
   ("value", value)]

/-- The request `put_item` sends: a PUT to `f"{self.base_url}/store/items"`. -/
def put_item_request (base : String) (ns : List String) (key : String)
    (value : Json) : HttpRequest :=
  HttpRequest.mk HttpMethod.put (base ++ "/store/items")
    (some (Json.obj (put_item_payload ns key value))) none false

/-- `put_item`'s handling of the response: validate the status; no value is
returned. -/
def put_item_onResponse (resp : HttpResponse) : Except ClientError Unit :=
  handleResponseUnit resp

/-- The query-parameter dict `get_item` builds: both keys are always
present, with Python `None` (embedded as `Json.null`) when the caller did
not supply the argument. -/
def get_item_params (ns : Option (List String)) (key : Option String) :
    List (String × Json) :=
  [("namespace", optListJson ns), ("key", optStrJson key)]

/-- The request `get_item` sends: a GET to `f"{self.base_url}/store/items"`
with `params=...` and no JSON body. -/
def get_item_request (base : String) (ns : Option (List String))
    (key : Option String) : HttpRequest :=
  HttpRequest.mk HttpMethod.get (base ++ "/store/items") none
    (some (get_item_params ns key)) false

/-- `get_item`'s handling of the response. -/
def get_item_onResponse (resp : HttpResponse) : Except ClientError Json :=
  handleResponse resp

/-- The payload dict `search_items` builds: `nsp` is the Python
`namespace_prefix` argument (renamed here; `null` when not supplied),
along with `filter` and the integer fields `limit` (whose declared
default is `10`) and `offset` (whose declared default is `0`). -/
def search_items_payload (nsp filter : Option Json)
    (limit offset : Int) : List (String × Json) :=
  [("namespace_prefix", optJson nsp),
   ("filter", optJson filter),
   ("limit", Json.num limit),
   ("offset", Json.num offset)]

/-- The request `search_items` sends: a POST to
`f"{self.base_url}/store/items/search"`. -/
def search_items_request (base : String) (nsp filter : Option Json)
    (limit offset : Int) : HttpRequest :=
  HttpRequest.mk HttpMethod.post (base ++ "/store/items/search")
    (some (Json.obj (search_items_payload nsp filter limit offset)))
    none false

/-- `search_items`'s handling of the response. -/
def search_items_onResponse (resp : HttpResponse) : Except ClientError Json :=
  handleResponse resp

/-! ### create_assistant -/

/-- The payload dict `create_assistant` builds: `graph_id` and `if_exists`
(whose declared default is `"raise"`) unconditionally, then each optional
parameter is added only under an `is not None` guard. -/
def create_assistant_payload (graph_id : String) (assistant_id : Option String)
    (config metadata : Option Json) (name : Option String)
    (if_exists : String) : List (String × Json) :=
  let p := [("graph_id", Json.str graph_id), ("if_exists", Json.str if_exists)]
  let p := match assistant_id with
    | none => p
    | some a => dictSet p "assistant_id" (Json.str a)
  let p := match config with
    | none => p
    | some c => dictSet p "config" c
  let p := match metadata with
    | none => p
    | some m => dictSet p "metadata" m
  match name with
  | none => p
  | some n => dictSet p "name" (Json.str n)

/-- The request `create_assistant` sends: a POST to
`f"{self.base_url}/assistants"`. -/
def create_assistant_request (base graph_id : String)
    (assistant_id : Option String) (config metadata : Option Json)
    (name : Option String) (if_exists : String) : HttpRequest :=
  HttpRequest.mk HttpMethod.post (base ++ "/assistants")
    (some (Json.obj (create_assistant_payload graph_id assistant_id config
      metadata name if_exists)))
    none false

/-- `create_assistant`'s handling of the response. -/
def create_assistant_onResponse (resp : HttpResponse) : Except ClientError Json :=
  handleResponse resp

/-! ### Operations as state transformers

Each Python method runs on `self`; none assigns to `self.base_url` or
`self.session`.  Each `*_step` function returns the client after the call
together with the request the call constructed, making the effect of the
call on the client's own state explicit. -/

def run_stateful_step (c : MCPClient) (assistant_id : String)
    (input_data config checkpoint metadata : Option Json)
    (kwargs : List (String × Json)) : MCPClient × HttpRequest :=
  (c, run_stateful_request c.base_url assistant_id input_data config
    checkpoint metadata kwargs)

def run_stateless_step (c : MCPClient) (assistant_id : String)
    (input_data config metadata : Option Json)
    (kwargs : List (String × Json)) : MCPClient × HttpRequest :=
  (c, run_stateless_request c.base_url assistant_id input_data config
    metadata kwargs)

def stream_run_step (c : MCPClient) (assistant_id : String)
    (input_data config metadata : Option Json)
    (kwargs : List (String × Json)) : MCPClient × HttpRequest :=
  (c, stream_run_request c.base_url assistant_id input_data config
    metadata kwargs)

def get_run_status_step (c : MCPClient) (thread_id run_id : String) :
    MCPClient × HttpRequest :=
  (c, get_run_status_request c.base_url thread_id run_id)

def cancel_run_step (c : MCPClient) (thread_id run_id : String)
    (kwargs : List (String × Json)) : MCPClient × HttpRequest :=
  (c, cancel_run_request c.base_url thread_id run_id kwargs)

def get_assistant_details_step (c : MCPClient) (assistant_id : String) :
    MCPClient × HttpRequest :=
  (c, get_assistant_details_request c.base_url assistant_id)

def get_assistant_schema_step (c : MCPClient) (assistant_id : String) :
    MCPClient × HttpRequest :=
  (c, get_assistant_schema_request c.base_url assistant_id)

def get_thread_state_step (c : MCPClient) (thread_id : String) :
    MCPClient × HttpRequest :=
  (c, get_thread_state_request c.base_url thread_id)

def update_thread_state_step (c : MCPClient) (thread_id : String)
    (values : Json) (checkpoint : Option Json) : MCPClient × HttpRequest :=
  (c, update_thread_state_request c.base_url thread_id values checkpoint)

def put_item_step (c : MCPClient) (ns : List String) (key : String)
    (value : Json) : MCPClient × HttpRequest :=
  (c, put_item_request c.base_url ns key value)

def get_item_step (c : MCPClient) (ns : Option (List String))
    (key : Option String) : MCPClient × HttpRequest :=
  (c, get_item_request c.base_url ns key)

def search_items_step (c : MCPClient) (nsp filter : Option Json)
    (limit offset : Int) : MCPClient × HttpRequest :=
  (c, search_items_request c.base_url nsp filter limit offset)

def create_assistant_step (c : MCPClient) (graph_id : String)
    (assistant_id : Option String) (config metadata : Option Json)
    (name : Option String) (if_exists : String) : MCPClient × HttpRequest :=
  (c, create_assistant_request c.base_url graph_id assistant_id config
    metadata name if_exists)

/-! ## Claims -/

/-- C1: every operation's request uses the documented HTTP method and a URL
formed by plain string concatenation of the base URL and the documented
path; in particular `run_stateful(assistant_id="a", input_data="x")` POSTs
to `{base}/threads/runs/wait` the JSON body
`{"assistant_id":"a","input":"x","config":null,"checkpoint":null,"metadata":null}`,
and on a 2xx response whose body decodes to `j` it returns `j`. -/
theorem claim_C1_request_mapping
    (base assistant_id thread_id run_id graph_id key if_exists : String)
    (input_data config checkpoint metadata nsp filter : Option Json)
    (values value : Json) (kwargs : List (String × Json)) (ns : List String)
    (ons : Option (List String)) (okey oaid oname : Option String)
    (limit offset : Int) :
    (∀ (resp : HttpResponse) (j : Json), 200 ≤ resp.status → resp.status < 300 →
       resp.jsonOf = some j → run_stateful_onResponse resp = Except.ok j) ∧
    run_stateful_request base "a" (some (Json.str "x")) none none none [] =
      HttpRequest.mk HttpMethod.post (base ++ "/threads/runs/wait")
        (some (Json.obj
          [("assistant_id", Json.str "a"), ("input", Json.str "x"),
           ("config", Json.null), ("checkpoint", Json.null),
           ("metadata", Json.null)])) none false ∧
    (run_stateful_request base assistant_id input_data config checkpoint
        metadata kwargs).method = HttpMethod.post ∧
    (run_stateful_request base assistant_id input_data config checkpoint
        metadata kwargs).url = base ++ "/threads/runs/wait" ∧
    (run_stateless_request base assistant_id input_data config metadata
        kwargs).method = HttpMethod.post ∧
    (run_stateless_request base assistant_id input_data config metadata
        kwargs).url = base ++ "/runs/wait" ∧
    (stream_run_request base assistant_id input_data config metadata
        kwargs).method = HttpMethod.post ∧
    (stream_run_request base assistant_id input_data config metadata
        kwargs).url = base ++ "/runs/stream" ∧
    (get_run_status_request base thread_id run_id).method = HttpMethod.get ∧
    (get_run_status_request base thread_id run_id).url =
      base ++ "/threads/" ++ thread_id ++ "/runs/" ++ run_id ∧
    (cancel_run_request base thread_id run_id kwargs).method = HttpMethod.post ∧
    (cancel_run_request base thread_id run_id kwargs).url =
      base ++ "/threads/" ++ thread_id ++ "/runs/" ++ run_id ++ "/cancel" ∧
    (get_assistant_details_request base assistant_id).method = HttpMethod.get ∧
    (get_assistant_details_request base assistant_id).url =
      base ++ "/assistants/" ++ assistant_id ++ "/schemas" ∧
    (get_assistant_schema_request base assistant_id).method = HttpMethod.get ∧
    (get_assistant_schema_request base assistant_id).url =
      base ++ "/assistants/" ++ assistant_id ++ "/schemas" ∧
    (get_thread_state_request base thread_id).method = HttpMethod.get ∧
    (get_thread_state_request base thread_id).url =
      base ++ "/threads/" ++ thread_id ++ "/state" ∧
    (update_thread_state_request base thread_id values checkpoint).method =
      HttpMethod.post ∧
    (update_thread_state_request base thread_id values checkpoint).url =
      base ++ "/threads/" ++ thread_id ++ "/state" ∧
    (put_item_request base ns key value).method = HttpMethod.put ∧
    (put_item_request base ns key value).url = base ++ "/store/items" ∧
    (get_item_request base ons okey).method = HttpMethod.get ∧
    (get_item_request base ons okey).url = base ++ "/store/items" ∧
    (search_items_request base nsp filter limit offset).method =
      HttpMethod.post ∧
    (search_items_request base nsp filter limit offset).url =
      base ++ "/store/items/search" ∧
    (create_assistant_request base graph_id oaid config metadata oname
        if_exists).method = HttpMethod.post ∧
    (create_assistant_request base graph_id oaid config metadata oname
        if_exists).url = base ++ "/assistants" := by
  refine ⟨?_, rfl, rfl, rfl, rfl, rfl, rfl, rfl, rfl, rfl, rfl, rfl, rfl,
    rfl, rfl, rfl, rfl, rfl, rfl, rfl, rfl, rfl, rfl, rfl, rfl, rfl, rfl, rfl⟩
  intro resp j hlo hhi hj
  have hb : raiseForStatus resp.status = false := by
    simp only [raiseForStatus, decide_eq_false_iff_not]
    omega
  simp [run_stateful_onResponse, handleResponse, hb, responseJson, hj]

/-- C1 witness: the concrete instance of the response clause at status 200. -/
theorem claim_C1_request_mapping_witness :
    run_stateful_onResponse (HttpResponse.mk 200 "{}" (some (Json.obj []))) =
      Except.ok (Json.obj []) := by
  exact (claim_C1_request_mapping "b" "a" "t" "r" "g" "k" "raise"
      none none none none none none Json.null Json.null [] [] none none none
      none 10 0).1
    (HttpResponse.mk 200 "{}" (some (Json.obj []))) (Json.obj [])
    (by decide) (by decide) rfl

/-- C2 counterexample: `search_items` is among the operations the claim
covers and `limit` is one of its declared optional parameters (declared
default `10`), yet the body built for the all-defaults call
`search_items()` carries `"limit": 10`, not a null-valued key. -/
theorem claim_C2_counterexample :
    dictLookup (search_items_payload none none 10 0) "limit" =
      some (Json.num 10) ∧
    some (Json.num 10) ≠ some Json.null := by
  exact ⟨rfl, by simp⟩

/-- C2 (amended): for `run_stateful`, `run_stateless`, `stream_run` and
`update_thread_state`, every declared optional parameter whose default is
`None` still appears as a null-valued key when the caller does not supply it
(and, for the kwargs-taking operations, when the extras do not rebind that
key); `search_items` behaves the same for its namespace-prefix argument
(`nsp` here) and `filter`,
while its `limit` and `offset` appear with their non-null declared defaults
`10` and `0`; and no declared key is ever omitted from any of these
bodies. -/
theorem claim_C2_null_keys
    (assistant_id : String) (input_data config checkpoint metadata : Option Json)
    (kwargs : List (String × Json)) (values : Json)
    (nsp filter : Option Json) (limit offset : Int) :
    (dictLookup kwargs "input" = none →
      dictLookup (run_stateful_payload assistant_id none config checkpoint
        metadata kwargs) "input" = some Json.null) ∧
    (dictLookup kwargs "config" = none →
      dictLookup (run_stateful_payload assistant_id input_data none checkpoint
        metadata kwargs) "config" = some Json.null) ∧
    (dictLookup kwargs "checkpoint" = none →
      dictLookup (run_stateful_payload assistant_id input_data config none
        metadata kwargs) "checkpoint" = some Json.null) ∧
    (dictLookup kwargs "metadata" = none →
      dictLookup (run_stateful_payload assistant_id input_data config
        checkpoint none kwargs) "metadata" = some Json.null) ∧
    (∀ k, k ∈ ["assistant_id", "input", "config", "checkpoint", "metadata"] →
      (dictLookup (run_stateful_payload assistant_id input_data config
        checkpoint metadata kwargs) k).isSome) ∧
    (dictLookup kwargs "input" = none →
      dictLookup (run_stateless_payload assistant_id none config metadata
        kwargs) "input" = some Json.null) ∧
    (dictLookup kwargs "config" = none →
      dictLookup (run_stateless_payload assistant_id input_data none metadata
        kwargs) "config" = some Json.null) ∧
    (dictLookup kwargs "metadata" = none →
      dictLookup (run_stateless_payload assistant_id input_data config none
        kwargs) "metadata" = some Json.null) ∧
    (∀ k, k ∈ ["assistant_id", "input", "config", "metadata"] →
      (dictLookup (run_stateless_payload assistant_id input_data config
        metadata kwargs) k).isSome) ∧
    (dictLookup kwargs "input" = none →
      dictLookup (stream_run_payload assistant_id none config metadata
        kwargs) "input" = some Json.null) ∧
    (dictLookup kwargs "config" = none →
      dictLookup (stream_run_payload assistant_id input_data none metadata
        kwargs) "config" = some Json.null) ∧
    (dictLookup kwargs "metadata" = none →
      dictLookup (stream_run_payload assistant_id input_data config none
        kwargs) "metadata" = some Json.null) ∧
    (∀ k, k ∈ ["assistant_id", "input", "config", "metadata"] →
      (dictLookup (stream_run_payload assistant_id input_data config
        metadata kwargs) k).isSome) ∧
    dictLookup (update_thread_state_payload values none) "checkpoint" =
      some Json.null ∧
    (∀ k, k ∈ ["values", "checkpoint"] →
      (dictLookup (update_thread_state_payload values checkpoint) k).isSome) ∧
    dictLookup (search_items_payload none filter limit offset)
      "namespace_prefix" = some Json.null ∧
    dictLookup (search_items_payload nsp none limit offset)
      "filter" = some Json.null ∧
    dictLookup (search_items_payload nsp filter 10 0) "limit" =
      some (Json.num 10) ∧
    dictLookup (search_items_payload nsp filter 10 0) "offset" =
      some (Json.num 0) ∧
    (∀ k, k ∈ ["namespace_prefix", "filter", "limit", "offset"] →
      (dictLookup (search_items_payload nsp filter limit
        offset) k).isSome) := by
  refine ⟨?_, ?_, ?_, ?_, ?_, ?_, ?_, ?_, ?_, ?_, ?_, ?_, ?_, rfl, ?_, rfl,
    ?_, rfl, rfl, ?_⟩
  all_goals
    first
    | (intro hkw
       rw [run_stateful_payload, dictLookup_dictUpdate_of_none _ _ _ hkw]
       simp [dictLookup, optJson])
    | (intro hkw
       rw [run_stateless_payload, dictLookup_dictUpdate_of_none _ _ _ hkw]
       simp [dictLookup, optJson])
    | (intro hkw
       rw [stream_run_payload, dictLookup_dictUpdate_of_none _ _ _ hkw]
       simp [dictLookup, optJson])
    | (intro k hk
       fin_cases hk <;>
       first
       | (apply dictLookup_isSome_dictUpdate
          simp [dictLookup])
       | simp [update_thread_state_payload, search_items_payload, dictLookup])
    | simp [search_items_payload, dictLookup, optJson]

/-- C2 witness: in `run_stateful` with nothing supplied and no extras,
`input` appears as an explicit null-valued key. -/
theorem claim_C2_null_keys_witness :
    dictLookup (run_stateful_payload "a" none none none none []) "input" =
      some Json.null := by
  exact (claim_C2_null_keys "a" none none none none [] Json.null none none
    10 0).1 rfl

/-- C3: in `create_assistant`'s body, `graph_id` and `if_exists` are always
present, and each optional parameter is present exactly when supplied,
carrying the given value (absent from the body otherwise). -/
theorem claim_C3_create_assistant_body (graph_id if_exists : String)
    (assistant_id name : Option String) (config metadata : Option Json) :
    dictLookup (create_assistant_payload graph_id assistant_id config metadata
      name if_exists) "graph_id" = some (Json.str graph_id) ∧
    dictLookup (create_assistant_payload graph_id assistant_id config metadata
      name if_exists) "if_exists" = some (Json.str if_exists) ∧
    dictLookup (create_assistant_payload graph_id assistant_id config metadata
      name if_exists) "assistant_id" = assistant_id.map Json.str ∧
    dictLookup (create_assistant_payload graph_id assistant_id config metadata
      name if_exists) "config" = config ∧
    dictLookup (create_assistant_payload graph_id assistant_id config metadata
      name if_exists) "metadata" = metadata ∧
    dictLookup (create_assistant_payload graph_id assistant_id config metadata
      name if_exists) "name" = name.map Json.str := by
  rcases assistant_id with _ | a <;> rcases config with _ | c <;>
    rcases metadata with _ | m <;> rcases name with _ | n <;>
    simp [create_assistant_payload, dictSet, dictLookup]

/-- C4: in every kwargs-taking operation the JSON body is the named fields
updated by the extras, so an extras binding always wins a key collision; for
`cancel_run` the body is exactly the extras dict. -/
theorem claim_C4_extras_override
    (base assistant_id thread_id run_id : String)
    (input_data config checkpoint metadata : Option Json)
    (kwargs : List (String × Json)) (k : String) (v : Json)
    (hnd : (kwargs.map Prod.fst).Nodup) (hk : dictLookup kwargs k = some v) :
    dictLookup (run_stateful_payload assistant_id input_data config checkpoint
      metadata kwargs) k = some v ∧
    dictLookup (run_stateless_payload assistant_id input_data config metadata
      kwargs) k = some v ∧
    dictLookup (stream_run_payload assistant_id input_data config metadata
      kwargs) k = some v ∧
    (cancel_run_request base thread_id run_id kwargs).jsonBody =
      some (Json.obj kwargs) := by
  refine ⟨?_, ?_, ?_, rfl⟩ <;>
    exact dictLookup_dictUpdate_of_some _ _ _ _ hnd hk

/-- C4 witness: an extras binding for `config` overrides the named `config`
field in `run_stateful`'s body. -/
theorem claim_C4_extras_override_witness :
    dictLookup (run_stateful_payload "a" none (some (Json.num 1)) none none
      [("config", Json.num 5)]) "config" = some (Json.num 5) := by
  exact (claim_C4_extras_override "b" "a" "t" "r" none (some (Json.num 1))
    none none [("config", Json.num 5)] "config" (Json.num 5)
    (by simp) rfl).1

/-- C5 counterexample: a 304 response is not 2xx, yet
`response.raise_for_status()` does not raise for it, so `get_run_status`
returns the decoded body instead of signalling a failure. -/
theorem claim_C5_counterexample :
    get_run_status_onResponse (HttpResponse.mk 304 "{}" (some (Json.obj []))) =
      Except.ok (Json.obj []) ∧
    ¬(200 ≤ 304 ∧ 304 < 300) := by
  exact ⟨rfl, by decide⟩

/-- C5 (amended): for any operation, a response whose status code is a 4xx
or 5xx (in `[400, 600)`) causes a signalled failure exposing the status code
and the raw response body, and no result value is returned; 4xx and 5xx are
not distinguished beyond the carried code and the error body is not parsed.
Non-2xx statuses outside that range (1xx, 3xx) do not signal a failure. -/
theorem claim_C5_http_failure (resp : HttpResponse)
    (hlo : 400 ≤ resp.status) (hhi : resp.status < 600) :
    run_stateful_onResponse resp =
      Except.error (ClientError.httpError resp.status resp.text) ∧
    (run_stateless_onResponse resp).2 =
      Except.error (ClientError.httpError resp.status resp.text) ∧
    get_run_status_onResponse resp =
      Except.error (ClientError.httpError resp.status resp.text) ∧
    get_assistant_details_onResponse resp =
      Except.error (ClientError.httpError resp.status resp.text) ∧
    get_assistant_schema_onResponse resp =
      Except.error (ClientError.httpError resp.status resp.text) ∧
    get_thread_state_onResponse resp =
      Except.error (ClientError.httpError resp.status resp.text) ∧
    update_thread_state_onResponse resp =
      Except.error (ClientError.httpError resp.status resp.text) ∧
    get_item_onResponse resp =
      Except.error (ClientError.httpError resp.status resp.text) ∧
    search_items_onResponse resp =
      Except.error (ClientError.httpError resp.status resp.text) ∧
    create_assistant_onResponse resp =
      Except.error (ClientError.httpError resp.status resp.text) ∧
    cancel_run_onResponse resp =
      Except.error (ClientError.httpError resp.status resp.text) ∧
    put_item_onResponse resp =
      Except.error (ClientError.httpError resp.status resp.text) ∧
    (∀ sresp : StreamResponse, 400 ≤ sresp.status → sresp.status < 600 →
      stream_run_onResponse sresp =
        Except.error (ClientError.httpError sresp.status sresp.text)) := by
  have hb : raiseForStatus resp.status = true := by
    simp only [raiseForStatus, decide_eq_true_eq]
    omega
  refine ⟨?_, ?_, ?_, ?_, ?_, ?_, ?_, ?_, ?_, ?_, ?_, ?_, ?_⟩
  · simp [run_stateful_onResponse, handleResponse, hb]
  · simp [run_stateless_onResponse, hb]
  · simp [get_run_status_onResponse, handleResponse, hb]
  · simp [get_assistant_details_onResponse, handleResponse, hb]
  · simp [get_assistant_schema_onResponse, get_assistant_details_onResponse,
      handleResponse, hb]
  · simp [get_thread_state_onResponse, handleResponse, hb]
  · simp [update_thread_state_onResponse, handleResponse, hb]
  · simp [get_item_onResponse, handleResponse, hb]
  · simp [search_items_onResponse, handleResponse, hb]
  · simp [create_assistant_onResponse, handleResponse, hb]
  · simp [cancel_run_onResponse, handleResponseUnit, hb]
  · simp [put_item_onResponse, handleResponseUnit, hb]
  · intro sresp hlo' hhi'
    have hb' : raiseForStatus sresp.status = true := by
      simp only [raiseForStatus, decide_eq_true_eq]
      omega
    simp [stream_run_onResponse, hb']

/-- C5 witness: a 404 with body `"nf"` makes `run_stateful` raise the HTTP
error carrying 404 and `"nf"`. -/
theorem claim_C5_http_failure_witness :
    run_stateful_onResponse (HttpResponse.mk 404 "nf" none) =
      Except.error (ClientError.httpError 404 "nf") := by
  exact (claim_C5_http_failure (HttpResponse.mk 404 "nf" none)
    (by decide) (by decide)).1

/-- C6 counterexample: a streamed 304 response is not 2xx, yet `stream_run`
does not raise on it — it returns the handle as a success. -/
theorem claim_C6_counterexample :
    stream_run_onResponse (StreamResponse.mk 304 "ev" ["ev"]) =
      Except.ok (StreamResponse.mk 304 "ev" ["ev"]) ∧
    ¬(200 ≤ 304 ∧ 304 < 300) := by
  exact ⟨rfl, by decide⟩

/-- C6 (amended): `stream_run` POSTs to `{base}/runs/stream` with
`stream=True` (the body is not buffered before the call returns); the
status is validated from the status code alone before any body is read,
raising on 4xx/5xx (not on every non-2xx), and otherwise the raw,
still-unconsumed response handle is returned for the caller to iterate. -/
theorem claim_C6_stream_run (base assistant_id : String)
    (input_data config metadata : Option Json)
    (kwargs : List (String × Json)) (resp : StreamResponse) :
    (stream_run_request base assistant_id input_data config metadata
      kwargs).method = HttpMethod.post ∧
    (stream_run_request base assistant_id input_data config metadata
      kwargs).url = base ++ "/runs/stream" ∧
    (stream_run_request base assistant_id input_data config metadata
      kwargs).stream = true ∧
    (400 ≤ resp.status → resp.status < 600 →
      stream_run_onResponse resp =
        Except.error (ClientError.httpError resp.status resp.text)) ∧
    (¬(400 ≤ resp.status ∧ resp.status < 600) →
      stream_run_onResponse resp = Except.ok resp) ∧
    (∀ r1 r2 : StreamResponse, r1.status = r2.status →
      ((stream_run_onResponse r1).isOk ↔ (stream_run_onResponse r2).isOk)) := by
  refine ⟨rfl, rfl, rfl, ?_, ?_, ?_⟩
  · intro hlo hhi
    have hb : raiseForStatus resp.status = true := by
      simp only [raiseForStatus, decide_eq_true_eq]
      omega
    simp [stream_run_onResponse, hb]
  · intro hout
    have hb : raiseForStatus resp.status = false := by
      simp only [raiseForStatus, decide_eq_false_iff_not]
      exact hout
    simp [stream_run_onResponse, hb]
  · intro r1 r2 hst
    by_cases hb : raiseForStatus r1.status <;>
      simp [stream_run_onResponse, hb, hst ▸ hb, Except.isOk, Except.toBool]

/-- C6 witness: a streamed 200 response is handed back unconsumed. -/
theorem claim_C6_stream_run_witness :
    stream_run_onResponse (StreamResponse.mk 200 "d1\nd2" ["d1", "d2"]) =
      Except.ok (StreamResponse.mk 200 "d1\nd2" ["d1", "d2"]) := by
  exact (claim_C6_stream_run "b" "a" none none none []
    (StreamResponse.mk 200 "d1\nd2" ["d1", "d2"])).2.2.2.2.1 (by decide)

/-- C7 counterexample: a 304 response is not 2xx, yet `run_stateless`
neither writes a diagnostic record nor signals a failure there — it returns
the decoded body with no diagnostics. -/
theorem claim_C7_counterexample :
    run_stateless_onResponse (HttpResponse.mk 304 "ev" (some Json.null)) =
      ([], Except.ok Json.null) ∧
    ¬(200 ≤ 304 ∧ 304 < 300) := by
  exact ⟨rfl, by decide⟩

/-- C7 (amended): on a 4xx/5xx response (not on every non-2xx),
`run_stateless` first writes one diagnostic record carrying the response's
status code and raw body and then re-signals the same HTTP failure; for
every response the value or failure the caller observes is exactly the one
the uniform path of the other operations produces, and no diagnostic is
written outside `[400, 600)`. -/
theorem claim_C7_stateless_diagnostic (resp : HttpResponse) :
    (400 ≤ resp.status → resp.status < 600 →
      run_stateless_onResponse resp =
        ([(resp.status, resp.text)],
         Except.error (ClientError.httpError resp.status resp.text))) ∧
    (run_stateless_onResponse resp).2 = run_stateful_onResponse resp ∧
    (¬(400 ≤ resp.status ∧ resp.status < 600) →
      (run_stateless_onResponse resp).1 = []) := by
  refine ⟨?_, ?_, ?_⟩
  · intro hlo hhi
    have hb : raiseForStatus resp.status = true := by
      simp only [raiseForStatus, decide_eq_true_eq]
      omega
    simp [run_stateless_onResponse, hb]
  · by_cases hb : raiseForStatus resp.status <;>
      simp [run_stateless_onResponse, run_stateful_onResponse,
        handleResponse, hb]
  · intro hout
    have hb : raiseForStatus resp.status = false := by
      simp only [raiseForStatus, decide_eq_false_iff_not]
      exact hout
    simp [run_stateless_onResponse, hb]

/-- C7 witness: on a 400 with body `"bad"`, `run_stateless` writes the
diagnostic record `(400, "bad")` and raises the same HTTP failure. -/
theorem claim_C7_stateless_diagnostic_witness :
    run_stateless_onResponse (HttpResponse.mk 400 "bad" none) =
      ([(400, "bad")], Except.error (ClientError.httpError 400 "bad")) := by
  exact (claim_C7_stateless_diagnostic (HttpResponse.mk 400 "bad" none)).1
    (by decide) (by decide)

/-- C8: `get_assistant_schema` issues exactly `get_assistant_details`'s GET
to `{base}/assistants/{assistant_id}/schemas` and returns the
`"input_schema"` field of the details document, or an empty mapping when
that field is absent from an otherwise successful response. -/
theorem claim_C8_get_assistant_schema (base assistant_id : String)
    (resp : HttpResponse) (fields : List (String × Json))
    (hok : get_assistant_details_onResponse resp =
      Except.ok (Json.obj fields)) :
    get_assistant_schema_request base assistant_id =
      get_assistant_details_request base assistant_id ∧
    (get_assistant_details_request base assistant_id).method =
      HttpMethod.get ∧
    (get_assistant_details_request base assistant_id).url =
      base ++ "/assistants/" ++ assistant_id ++ "/schemas" ∧
    get_assistant_schema_onResponse resp =
      Except.ok ((dictLookup fields "input_schema").getD (Json.obj [])) ∧
    (dictLookup fields "input_schema" = none →
      get_assistant_schema_onResponse resp = Except.ok (Json.obj [])) := by
  refine ⟨rfl, rfl, rfl, ?_, ?_⟩
  · simp [get_assistant_schema_onResponse, hok]
  · intro hnone
    simp [get_assistant_schema_onResponse, hok, hnone]

/-- C8 witness: a successful details document without `"input_schema"`
yields the empty mapping. -/
theorem claim_C8_get_assistant_schema_witness :
    get_assistant_schema_onResponse
      (HttpResponse.mk 200 "{}" (some (Json.obj []))) =
      Except.ok (Json.obj []) := by
  exact (claim_C8_get_assistant_schema "b" "a"
    (HttpResponse.mk 200 "{}" (some (Json.obj []))) [] rfl).2.2.2.2 rfl

/-- C9: `get_item` issues a GET to `{base}/store/items` with no JSON body
and a query-parameter mapping that always carries both `namespace` and
`key` (as `None`, embedded `null`, when absent; the transport's encoding is
left to drop or encode them); with `namespace=["ns"]`, `key="k"` the
parameters are exactly those two bindings, and on a 2xx response the
decoded JSON body is returned. -/
theorem claim_C9_get_item (base : String) (ns : Option (List String))
    (key : Option String) (resp : HttpResponse) (j : Json)
    (hlo : 200 ≤ resp.status) (hhi : resp.status < 300)
    (hjson : resp.jsonOf = some j) :
    get_item_request base ns key =
      HttpRequest.mk HttpMethod.get (base ++ "/store/items") none
        (some [("namespace", optListJson ns), ("key", optStrJson key)])
        false ∧
    get_item_request base (some ["ns"]) (some "k") =
      HttpRequest.mk HttpMethod.get (base ++ "/store/items") none
        (some [("namespace", Json.arr [Json.str "ns"]),
               ("key", Json.str "k")]) false ∧
    get_item_onResponse resp = Except.ok j := by
  refine ⟨rfl, rfl, ?_⟩
  have hb : raiseForStatus resp.status = false := by
    simp only [raiseForStatus, decide_eq_false_iff_not]
    omega
  simp [get_item_onResponse, handleResponse, hb, responseJson, hjson]

/-- C9 witness: the concrete `get_item(namespace=["ns"], key="k")` call on a
200 response. -/
theorem claim_C9_get_item_witness :
    get_item_onResponse (HttpResponse.mk 200 "{}" (some (Json.obj []))) =
      Except.ok (Json.obj []) := by
  exact (claim_C9_get_item "b" (some ["ns"]) (some "k")
    (HttpResponse.mk 200 "{}" (some (Json.obj []))) (Json.obj [])
    (by decide) (by decide) rfl).2.2

/-- C10: construction stores the base URL; every operation returns the
client unchanged (neither `base_url` nor the session is ever reassigned);
and the caller-supplied Input/Config/Checkpoint/Metadata values are
forwarded unaltered into a freshly built payload mapping (whenever the
extras do not rebind the field's key). -/
theorem claim_C10_client_state_frame (c : MCPClient) (base_url : String)
    (sess : Nat)
    (assistant_id thread_id run_id graph_id key if_exists : String)
    (input_data config checkpoint metadata nsp filter :
      Option Json)
    (values value : Json) (kwargs : List (String × Json)) (ns : List String)
    (ons : Option (List String)) (okey oaid oname : Option String)
    (limit offset : Int) :
    (mcpClientInit base_url sess).base_url = base_url ∧
    (run_stateful_step c assistant_id input_data config checkpoint metadata
      kwargs).1 = c ∧
    (run_stateless_step c assistant_id input_data config metadata
      kwargs).1 = c ∧
    (stream_run_step c assistant_id input_data config metadata kwargs).1 = c ∧
    (get_run_status_step c thread_id run_id).1 = c ∧
    (cancel_run_step c thread_id run_id kwargs).1 = c ∧
    (get_assistant_details_step c assistant_id).1 = c ∧
    (get_assistant_schema_step c assistant_id).1 = c ∧
    (get_thread_state_step c thread_id).1 = c ∧
    (update_thread_state_step c thread_id values checkpoint).1 = c ∧
    (put_item_step c ns key value).1 = c ∧
    (get_item_step c ons okey).1 = c ∧
    (search_items_step c nsp filter limit offset).1 = c ∧
    (create_assistant_step c graph_id oaid config metadata oname
      if_exists).1 = c ∧
    (∀ jv, input_data = some jv → dictLookup kwargs "input" = none →
      dictLookup (run_stateful_payload assistant_id input_data config
        checkpoint metadata kwargs) "input" = some jv) ∧
    (∀ jv, config = some jv → dictLookup kwargs "config" = none →
      dictLookup (run_stateful_payload assistant_id input_data config
        checkpoint metadata kwargs) "config" = some jv) ∧
    (∀ jv, checkpoint = some jv → dictLookup kwargs "checkpoint" = none →
      dictLookup (run_stateful_payload assistant_id input_data config
        checkpoint metadata kwargs) "checkpoint" = some jv) ∧
    (∀ jv, metadata = some jv → dictLookup kwargs "metadata" = none →
      dictLookup (run_stateful_payload assistant_id input_data config
        checkpoint metadata kwargs) "metadata" = some jv) ∧
    dictLookup (update_thread_state_payload values checkpoint) "values" =
      some values ∧
    (∀ jv, checkpoint = some jv →
      dictLookup (update_thread_state_payload values checkpoint)
        "checkpoint" = some jv) ∧
    dictLookup (put_item_payload ns key value) "value" = some value := by
  refine ⟨rfl, rfl, rfl, rfl, rfl, rfl, rfl, rfl, rfl, rfl, rfl, rfl, rfl,
    rfl, ?_, ?_, ?_, ?_, ?_, ?_, ?_⟩
  · intro jv hjv hkw
    rw [run_stateful_payload, dictLookup_dictUpdate_of_none _ _ _ hkw]
    simp [dictLookup, hjv, optJson]
  · intro jv hjv hkw
    rw [run_stateful_payload, dictLookup_dictUpdate_of_none _ _ _ hkw]
    simp [dictLookup, hjv, optJson]
  · intro jv hjv hkw
    rw [run_stateful_payload, dictLookup_dictUpdate_of_none _ _ _ hkw]
    simp [dictLookup, hjv, optJson]
  · intro jv hjv hkw
    rw [run_stateful_payload, dictLookup_dictUpdate_of_none _ _ _ hkw]
    simp [dictLookup, hjv, optJson]
  · simp [update_thread_state_payload, dictLookup]
  · intro jv hjv
    simp [update_thread_state_payload, dictLookup, hjv, optJson]
  · simp [put_item_payload, dictLookup]

/-- C10 witness: a concrete client is unchanged by `run_stateful` and the
supplied input value reaches the payload unaltered. -/
theorem claim_C10_client_state_frame_witness :
    (run_stateful_step (MCPClient.mk "b" 0) "a" (some (Json.str "x")) none
      none none []).1 = MCPClient.mk "b" 0 ∧
    dictLookup (run_stateful_payload "a" (some (Json.str "x")) none none
      none []) "input" = some (Json.str "x") := by
  have h := claim_C10_client_state_frame (MCPClient.mk "b" 0) "b" 0
    "a" "t" "r" "g" "k" "raise" (some (Json.str "x")) none none none none
    none Json.null Json.null [] [] none none none none 10 0
  exact ⟨h.2.1, h.2.2.2.2.2.2.2.2.2.2.2.2.2.2.1 (Json.str "x") rfl rfl⟩
